import Mathlib

/-
  Shallow embedding of the QCHAIN logging subsystem of CreoDAMO/Spiral-Economy.

  Source of authority:
    * src/src/quantum/QCHAIN.js — logQCHAIN, createQuantumSignature,
      storeLocalLog, getQCHAINLogs, verifyQCHAINSignature, transmitLog.
    * src/Iyonael.js — simulateSync (the sync pass over the queued logs).

  Modelling conventions:
    * JS strings are `String` / `List Char`; machine time `Date.now()` and the
      ISO timestamp `new Date().toISOString()` enter as explicit parameters.
    * The browser `localStorage` array under the key "qchain_logs" is the
      `LogState` record; `navigator.onLine` is an explicit `online : Bool`.
    * `crypto.subtle.digest('SHA-256', bytes)` is embedded as a full
      executable SHA-256 over byte lists (`Nat`s < 256, arithmetic mod 2^32).
    * `JSON.stringify` is embedded over the typed record/metrics model below,
      with the JS behaviours the claims can touch: property order is object
      insertion order (fixed here to the construction order event, txId,
      timestamp, interplanetary, metrics), `undefined`-valued properties are
      dropped, and `NaN` serializes as `null`.
    * Thrown JS errors are `Except.error`; side effects (the local-store write
      and the transmission attempt) are recorded in an ordered effect trace.
-/

/-- JS values as they can appear in an event record's open `metrics` mapping:
null, undefined, booleans, (integer) numbers, NaN and strings.  `JSON.stringify`
drops `undefined`-valued properties and renders `NaN` as `null`, exactly as the
JS runtime does. -/
inductive JVal where
  | jnull
  | jundef
  | jbool (b : Bool)
  | jint (n : Int)
  | jnan
  | jstr (s : String)
deriving DecidableEq

/-- JS truthiness of a `JVal`, as used by `if (!x)` checks in QCHAIN.js:
null, undefined, false, 0, NaN and the empty string are falsy. -/
def truthy : JVal → Bool
  | .jnull => false
  | .jundef => false
  | .jbool b => b
  | .jint n => n != 0
  | .jnan => false
  | .jstr s => s != ""

/-- A JS object used as an open metrics mapping: key/value pairs in insertion
order (JS objects preserve insertion order for string keys). -/
abbrev Metrics := List (String × JVal)

/-- Property read `m[k]`: first binding of the key, `none` when absent
(reads as `undefined` in JS). -/
def lookupKey (m : Metrics) (k : String) : Option JVal :=
  match m with
  | [] => none
  | (k', v) :: rest => if k' = k then some v else lookupKey rest k

/-- Property write `m[k] = v`: overwrite the existing binding in place
(JS keeps the original insertion position), or append a fresh binding. -/
def setKey (m : Metrics) (k : String) (v : JVal) : Metrics :=
  match m with
  | [] => [(k, v)]
  | (k', v') :: rest => if k' = k then (k, v) :: rest else (k', v') :: setKey rest k v

/-- Truthiness of a property read: an absent property is `undefined`, hence
falsy. -/
def truthyOpt : Option JVal → Bool
  | none => false
  | some v => truthy v

/-- The event-record object handed to `logQCHAIN`.  Each field is `none` when
the JS property is absent.  `logQCHAIN` mutates this very object in place
(fills `timestamp`, `interplanetary`, `metrics`, `metrics.compliance`); the
signature is never a property of it — only of the stored copy. -/
structure QRecord where
  event : Option String := none
  txId : Option String := none
  timestamp : Option String := none
  interplanetary : Option Bool := none
  metrics : Option Metrics := none
deriving DecidableEq

/-- Decimal digit character for `k % 10` (codepoints 48..57). -/
def digitChar10 (k : Nat) : Char := Char.ofNat (48 + k % 10)

/-- Is `c` one of '0'..'9' (the regex class `\d`)? -/
def isDigitCh (c : Char) : Bool := ('0' ≤ c) && (c ≤ '9')

/-- Is `c` in the regex class `[0-9a-f]`? -/
def isHexCh (c : Char) : Bool := (('0' ≤ c) && (c ≤ '9')) || (('a' ≤ c) && (c ≤ 'f'))

/-- Lowercase hex digit character for a nibble, as produced by JS
`b.toString(16)`. -/
def hexDigitChar (n : Nat) : Char :=
  if n < 10 then Char.ofNat (48 + n) else Char.ofNat (87 + n)

/-- Decimal notation worker: structural recursion on a fuel bound so the
definition reduces inside the kernel.  `fuel` strictly exceeds the number of
decimal digits at every call site. -/
def natToDecAux : Nat → Nat → List Char
  | 0, _ => []
  | fuel + 1, n =>
    if n < 10 then [digitChar10 n]
    else natToDecAux fuel (n / 10) ++ [digitChar10 (n % 10)]

/-- Decimal notation of a natural number, as JS number-to-string conversion
produces for the integers QCHAIN uses (`Date.now()` values). -/
def natToDec (n : Nat) : List Char := natToDecAux (n + 1) n

/-- Decimal notation of a JS integer, sign included. -/
def intToDec (i : Int) : List Char :=
  if i < 0 then '-' :: natToDec i.natAbs else natToDec i.natAbs

/-- Concatenated image of a list under a list-producing function. -/
def listJoinMap (f : α → List β) : List α → List β
  | [] => []
  | a :: as => f a ++ listJoinMap f as

/-- Interpose a separator between serialized items (JSON comma joining). -/
def joinWith (sep : List Char) : List (List Char) → List Char
  | [] => []
  | [x] => x
  | x :: y :: xs => x ++ sep ++ joinWith sep (y :: xs)

/-- JSON string escaping of one character, as `JSON.stringify` performs it. -/
def escapeJsonChar (c : Char) : List Char :=
  if c = '"' then ['\\', '"']
  else if c = '\\' then ['\\', '\\']
  else if c.toNat = 8 then ['\\', 'b']
  else if c.toNat = 9 then ['\\', 't']
  else if c.toNat = 10 then ['\\', 'n']
  else if c.toNat = 12 then ['\\', 'f']
  else if c.toNat = 13 then ['\\', 'r']
  else if c.toNat < 32 then
    ['\\', 'u', '0', '0', hexDigitChar (c.toNat / 16), hexDigitChar (c.toNat % 16)]
  else [c]

/-- A JSON string literal: quotes around the escaped characters. -/
def jquote (s : String) : List Char :=
  '"' :: listJoinMap escapeJsonChar s.toList ++ ['"']

/-- JSON rendering of a metrics value; `none` means the property is dropped
entirely (`undefined`), and `NaN` renders as `null`, as in JS. -/
def serializeJVal : JVal → Option (List Char)
  | .jundef => none
  | .jnull => some ('n' :: 'u' :: 'l' :: 'l' :: [])
  | .jnan => some ('n' :: 'u' :: 'l' :: 'l' :: [])
  | .jbool true => some ('t' :: 'r' :: 'u' :: 'e' :: [])
  | .jbool false => some ('f' :: 'a' :: 'l' :: 's' :: 'e' :: [])
  | .jint i => some (intToDec i)
  | .jstr s => some (jquote s)

/-- JSON rendering of the metrics object, properties in insertion order,
`undefined`-valued properties dropped. -/
def serializeMetrics (m : Metrics) : List Char :=
  '{' :: joinWith [','] (m.filterMap
    (fun kv => (serializeJVal kv.2).map (fun sv => jquote kv.1 ++ ':' :: sv))) ++ ['}']

/-- `JSON.stringify` of the event record: present properties in insertion
order (absent properties are absent from the JSON, exactly like `undefined`
object properties in JS). -/
def stringify (d : QRecord) : List Char :=
  let fields : List (List Char) :=
    (match d.event with | some s => [jquote "event" ++ ':' :: jquote s] | none => []) ++
    (match d.txId with | some s => [jquote "txId" ++ ':' :: jquote s] | none => []) ++
    (match d.timestamp with | some s => [jquote "timestamp" ++ ':' :: jquote s] | none => []) ++
    (match d.interplanetary with
      | some true => [jquote "interplanetary" ++ ':' :: ('t' :: 'r' :: 'u' :: 'e' :: [])]
      | some false => [jquote "interplanetary" ++ ':' :: ('f' :: 'a' :: 'l' :: 's' :: 'e' :: [])]
      | none => []) ++
    (match d.metrics with | some m => [jquote "metrics" ++ ':' :: serializeMetrics m] | none => [])
  '{' :: joinWith [','] fields ++ ['}']

/-- UTF-8 bytes of one character, as `TextEncoder().encode` emits them. -/
def charUtf8 (c : Char) : List Nat :=
  let n := c.toNat
  if n < 128 then [n]
  else if n < 2048 then [192 ||| (n >>> 6), 128 ||| (n &&& 63)]
  else if n < 65536 then
    [224 ||| (n >>> 12), 128 ||| ((n >>> 6) &&& 63), 128 ||| (n &&& 63)]
  else
    [240 ||| (n >>> 18), 128 ||| ((n >>> 12) &&& 63),
     128 ||| ((n >>> 6) &&& 63), 128 ||| (n &&& 63)]

/-- UTF-8 encoding of a whole string (`new TextEncoder().encode(s)`). -/
def strToBytes (s : List Char) : List Nat := listJoinMap charUtf8 s

/-- Modulus of 32-bit words: SHA-256 arithmetic is mod 2^32. -/
def M32 : Nat := 4294967296

/-- Right rotation of a 32-bit word by `n` places. -/
def rotr (n x : Nat) : Nat := ((x >>> n) ||| (x <<< (32 - n))) % M32

/-- SHA-256 `Ch` function (bitwise choice; complement via xor with the
all-ones 32-bit word). -/
def shaCh (x y z : Nat) : Nat := (x &&& y) ^^^ ((x ^^^ (M32 - 1)) &&& z)

/-- SHA-256 `Maj` function (bitwise majority). -/
def shaMaj (x y z : Nat) : Nat := (x &&& y) ^^^ (x &&& z) ^^^ (y &&& z)

/-- SHA-256 big sigma 0. -/
def bsig0 (x : Nat) : Nat := rotr 2 x ^^^ rotr 13 x ^^^ rotr 22 x

/-- SHA-256 big sigma 1. -/
def bsig1 (x : Nat) : Nat := rotr 6 x ^^^ rotr 11 x ^^^ rotr 25 x

/-- SHA-256 small sigma 0. -/
def ssig0 (x : Nat) : Nat := rotr 7 x ^^^ rotr 18 x ^^^ (x >>> 3)

/-- SHA-256 small sigma 1. -/
def ssig1 (x : Nat) : Nat := rotr 17 x ^^^ rotr 19 x ^^^ (x >>> 10)

/-- The 64 SHA-256 round constants (FIPS 180-4), written in decimal. -/
def shaK : List Nat :=
  [1116352408, 1899447441, 3049323471, 3921009573, 961987163, 1508970993,
   2453635748, 2870763221, 3624381080, 310598401, 607225278, 1426881987,
   1925078388, 2162078206, 2614888103, 3248222580, 3835390401, 4022224774,
   264347078, 604807628, 770255983, 1249150122, 1555081692, 1996064986,
   2554220882, 2821834349, 2952996808, 3210313671, 3336571891, 3584528711,
   113926993, 338241895, 666307205, 773529912, 1294757372, 1396182291,
   1695183700, 1986661051, 2177026350, 2456956037, 2730485921, 2820302411,
   3259730800, 3345764771, 3516065817, 3600352804, 4094571909, 275423344,
   430227734, 506948616, 659060556, 883997877, 958139571, 1322822218,
   1537002063, 1747873779, 1955562222, 2024104815, 2227730452, 2361852424,
   2428436474, 2756734187, 3204031479, 3329325298]

/-- The eight 32-bit working registers of the SHA-256 state. -/
structure Hash8 where
  a : Nat
  b : Nat
  c : Nat
  d : Nat
  e : Nat
  f : Nat
  g : Nat
  h : Nat
deriving DecidableEq

/-- SHA-256 initial hash value (FIPS 180-4), written in decimal. -/
def initH : Hash8 :=
  ⟨1779033703, 3144134277, 1013904242, 2773480762,
   1359893119, 2600822924, 528734635, 1541459225⟩

/-- Big-endian 8-byte rendering of a 64-bit length field. -/
def be64 (n : Nat) : List Nat :=
  [(n >>> 56) % 256, (n >>> 48) % 256, (n >>> 40) % 256, (n >>> 32) % 256,
   (n >>> 24) % 256, (n >>> 16) % 256, (n >>> 8) % 256, n % 256]

/-- SHA-256 padding: append 0x80, zero-fill to 56 mod 64, then the bit length
as 8 big-endian bytes. -/
def padMessage (msg : List Nat) : List Nat :=
  msg ++ 128 :: List.replicate ((119 - msg.length % 64) % 64) 0 ++ be64 (8 * msg.length)

/-- Group bytes into big-endian 32-bit words. -/
def bytesToWords : List Nat → List Nat
  | a :: b :: c :: d :: rest =>
      ((a * 16777216 + b * 65536 + c * 256 + d) % M32) :: bytesToWords rest
  | _ => []

/-- One message-schedule extension step: append
`ssig1 w[t-2] + w[t-7] + ssig0 w[t-15] + w[t-16]`. -/
def schedStep (w : List Nat) : List Nat :=
  w ++ [(ssig1 (w.getD (w.length - 2) 0) + w.getD (w.length - 7) 0 +
         ssig0 (w.getD (w.length - 15) 0) + w.getD (w.length - 16) 0) % M32]

/-- Extend the 16 block words by `k` scheduled words (48 for a full block). -/
def schedule (w : List Nat) : Nat → List Nat
  | 0 => w
  | k + 1 => schedule (schedStep w) k

/-- One SHA-256 compression round on the eight registers. -/
def shaRound (st : Hash8) (kw : Nat × Nat) : Hash8 :=
  let t1 := (st.h + bsig1 st.e + shaCh st.e st.f st.g + kw.1 + kw.2) % M32
  let t2 := (bsig0 st.a + shaMaj st.a st.b st.c) % M32
  ⟨(t1 + t2) % M32, st.a, st.b, st.c, (st.d + t1) % M32, st.e, st.f, st.g⟩

/-- Compress one 64-byte block into the chaining value. -/
def compressBlock (H : Hash8) (block : List Nat) : Hash8 :=
  let w := schedule (bytesToWords block) 48
  let st := (shaK.zip w).foldl shaRound H
  ⟨(H.a + st.a) % M32, (H.b + st.b) % M32, (H.c + st.c) % M32, (H.d + st.d) % M32,
   (H.e + st.e) % M32, (H.f + st.f) % M32, (H.g + st.g) % M32, (H.h + st.h) % M32⟩

/-- Chunking worker: structural recursion on a fuel bound so the definition
reduces inside the kernel. -/
def chunk64Aux : Nat → List Nat → List (List Nat)
  | 0, _ => []
  | _, [] => []
  | fuel + 1, a :: l => ((a :: l).take 64) :: chunk64Aux fuel ((a :: l).drop 64)

/-- Split a byte list into 64-byte chunks. -/
def chunk64 (l : List Nat) : List (List Nat) := chunk64Aux l.length l

/-- Big-endian bytes of one 32-bit word of the digest. -/
def wordBytes (w : Nat) : List Nat :=
  [(w >>> 24) % 256, (w >>> 16) % 256, (w >>> 8) % 256, w % 256]

/-- Full SHA-256: the 32 digest bytes of a byte message
(`crypto.subtle.digest('SHA-256', bytes)`). -/
def sha256 (msg : List Nat) : List Nat :=
  let H := (chunk64 (padMessage msg)).foldl compressBlock initH
  wordBytes H.a ++ wordBytes H.b ++ wordBytes H.c ++ wordBytes H.d ++
  wordBytes H.e ++ wordBytes H.f ++ wordBytes H.g ++ wordBytes H.h

/-- Lowercase hex of a byte, two characters
(`b.toString(16).padStart(2, '0')`). -/
def byteToHex (b : Nat) : List Char := [hexDigitChar (b / 16), hexDigitChar (b % 16)]

/-- Lowercase hex of a byte list, as the `hashArray.map(...).join('')` step of
QCHAIN.js produces it. -/
def bytesToHex (bs : List Nat) : List Char := listJoinMap byteToHex bs


/-- The 16-hex-character fingerprint `hashHex.substring(0, 16)` of
`createQuantumSignature`: the first 16 hex characters of
SHA-256(JSON.stringify(data) + timestamp). -/
def fp16 (d : QRecord) (t : Nat) : List Char :=
  (bytesToHex (sha256 (strToBytes (stringify d ++ natToDec t)))).take 16

/-- QCHAIN.js `createQuantumSignature`: the template string
`QS-hashHex.substring(0,16)-timestamp` where `timestamp` is `Date.now()`
(passed here explicitly as `t`) and the hash covers
`JSON.stringify(data) + timestamp`. -/
def createQuantumSignature (d : QRecord) (t : Nat) : List Char :=
  'Q' :: 'S' :: '-' :: (fp16 d t ++ '-' :: natToDec t)

/-- Longest boolean-predicate run at the head of a list, with the rest:
the backtracking-free core of the regex pieces `[0-9a-f]+` and `\d+`. -/
def takeWhileCh (p : Char → Bool) : List Char → List Char × List Char
  | [] => ([], [])
  | c :: cs =>
    if p c then
      let r := takeWhileCh p cs
      (c :: r.1, r.2)
    else ([], c :: cs)

/-- Attempt of the regex `QS-[0-9a-f]+-(\d+)` at one fixed position, returning
the captured group.  Greedy matching needs no backtracking here: `-` is outside
`[0-9a-f]`, so the hex run is forced maximal, and nothing follows `(\d+)`. -/
def matchQSAt : List Char → Option (List Char)
  | 'Q' :: 'S' :: '-' :: rest =>
    let s1 := takeWhileCh isHexCh rest
    if s1.1 = [] then none
    else
      match s1.2 with
      | '-' :: rest2 =>
        let s2 := takeWhileCh isDigitCh rest2
        if s2.1 = [] then none else some s2.1
      | _ => none
  | _ => none

/-- JS `signature.match(/QS-[0-9a-f]+-(\d+)/)`: unanchored scan — try every
position left to right and return the first captured timestamp group, `none`
when the regex matches nowhere. -/
def matchQS : List Char → Option (List Char)
  | [] => none
  | c :: cs =>
    match matchQSAt (c :: cs) with
    | some g => some g
    | none => matchQS cs

/-- QCHAIN.js `verifyQCHAINSignature`: extract the timestamp group from the
signature (returning `false` on parse failure), recompute the hash of
`JSON.stringify(data) + timestamp`, rebuild the expected signature and compare
it with the full provided signature string.  Total — the JS function never
throws on an unparseable signature. -/
def verifyQCHAINSignature (d : QRecord) (signature : List Char) : Bool :=
  match matchQS signature with
  | none => false
  | some ts =>
    let hashHex := bytesToHex (sha256 (strToBytes (stringify d ++ ts)))
    let expected := 'Q' :: 'S' :: '-' :: (hashHex.take 16 ++ '-' :: ts)
    if signature = expected then true else false

/-- One entry of the local log store: the spread copy `{ ...data, signature }`
that `storeLocalLog` receives — the normalized record together with the
signature property that only this stored copy carries. -/
structure StoredRecord where
  data : QRecord
  signature : List Char
deriving DecidableEq

/-- The browser-local persistence: the JSON array behind the
`localStorage` key "qchain_logs". -/
structure LogState where
  logs : List StoredRecord
deriving DecidableEq

/-- QCHAIN.js `storeLocalLog`: read the existing array, push the new entry at
the end, write the array back. -/
def storeLocalLog (st : LogState) (entry : StoredRecord) : LogState :=
  ⟨st.logs ++ [entry]⟩

/-- QCHAIN.js `getQCHAINLogs`: parse and return the whole stored array. -/
def getQCHAINLogs (st : LogState) : List StoredRecord := st.logs

/-- The value `logQCHAIN` resolves with: `{ status: 'logged', txId, signature }`. -/
structure LogResult where
  status : String
  txId : String
  signature : List Char
deriving DecidableEq

/-- Observable side effects of one `logQCHAIN` call, in execution order:
the local-store write, then (only when online) the transmission attempt,
whose `ok` flag records whether `transmitLog` succeeded or threw. -/
inductive LogEffect where
  | persist (entry : StoredRecord)
  | transmit (entry : StoredRecord) (ok : Bool)
deriving DecidableEq

/-- The field-presence validation at the head of `logQCHAIN`:
`if (!data.event || !data.txId) throw ...` — absent and empty-string values
are both falsy in JS. -/
def validData (d : QRecord) : Bool :=
  (d.event.getD "" != "") && (d.txId.getD "" != "")

/-- The in-place normalization block of `logQCHAIN`: fill `timestamp` when
falsy (absent or empty) with the current ISO time, default `interplanetary`
to `true` only when the property is absent (`=== undefined`), ensure the
`metrics` object exists, and within it default a falsy `compliance` entry to
`'100%'` (overwriting in place when present but falsy, appending when absent). -/
def normalizeData (d : QRecord) (now : String) : QRecord :=
  { event := d.event
    txId := d.txId
    timestamp := some (match d.timestamp with
      | some ts => if ts = "" then now else ts
      | none => now)
    interplanetary := some (d.interplanetary.getD true)
    metrics := some (
      let m := d.metrics.getD []
      if truthyOpt (lookupKey m "compliance") then m
      else setKey m "compliance" (.jstr "100%")) }

/-- QCHAIN.js `logQCHAIN`, the async `append` of the spec, as one state
transformer.  Parameters beyond the source's `data`: the store contents `st`,
the connectivity flag `online` (`navigator.onLine`), the oracle `sendOk`
telling whether the transmission attempt would succeed or throw (the `catch`
branch), the current ISO time `now` and machine time `t` (`Date.now()`).
Returns the settled value (or the thrown validation error), the new store
contents, and the ordered effect trace.  The first component of the `ok`
payload is the argument object as the caller sees it after the call —
`logQCHAIN` mutates `data` in place and never attaches the signature to it. -/
def logQCHAIN (d : QRecord) (st : LogState) (online : Bool) (sendOk : Bool)
    (now : String) (t : Nat) :
    Except String (QRecord × LogResult) × LogState × List LogEffect :=
  if validData d = true then
    let nd := normalizeData d now
    let sig := createQuantumSignature nd t
    let entry : StoredRecord := ⟨nd, sig⟩
    (Except.ok (nd, { status := "logged", txId := d.txId.getD "", signature := sig }),
     storeLocalLog st entry,
     .persist entry :: (if online then [.transmit entry sendOk] else []))
  else
    (Except.error "QCHAIN log requires event and txId fields", st, [])

/-- The record component of a `logQCHAIN` outcome — the caller's argument
object after the call — when the call succeeded. -/
def loggedRecord (out : Except String (QRecord × LogResult) × LogState × List LogEffect) :
    Option QRecord :=
  match out.1 with
  | .ok (r, _) => some r
  | .error _ => none

/-- The metrics of the caller's argument object after a successful call. -/
def loggedMetrics (out : Except String (QRecord × LogResult) × LogState × List LogEffect) :
    Option Metrics :=
  match out.1 with
  | .ok (r, _) => r.metrics
  | .error _ => none

/-- The counters of the Iyonael.js offline test harness that `simulateSync`
updates.  The timing fields of the source (`syncLatency`, `crdtMergeLatency`)
are wall-clock measurements and are not modelled; `syncedOperations` is the
per-entry counter the source increments once per processed queued log. -/
structure SyncMetrics where
  syncedOperations : Nat
deriving DecidableEq

/-- Iyonael.js `simulateSync`, the spec's `drainQueue`: read the queued logs
with `getQCHAINLogs`, process every one of them (one simulated CRDT merge per
entry, counted in `metrics.syncedOperations`), and finish.  The store is never
written: no entry is marked synced or removed.  Returns the updated metrics
and the number of per-entry sync operations this call performed. -/
def simulateSync (st : LogState) (m : SyncMetrics) : SyncMetrics × Nat :=
  let queued := getQCHAINLogs st
  (queued.foldl (fun acc _ => { acc with syncedOperations := acc.syncedOperations + 1 }) m,
   queued.length)

/-- One offline append as the sync scenario of the spec performs it: the
input record together with its per-call clock readings. -/
structure AppendInput where
  data : QRecord
  now : String
  time : Nat
deriving DecidableEq

/-- Fold a batch of appends over the store with connectivity down
(`navigator.onLine === false`), keeping only the store. -/
def appendAllOffline (inputs : List AppendInput) (st : LogState) : LogState :=
  inputs.foldl (fun s x => (logQCHAIN x.data s false false x.now x.time).2.1) st

/-- The stored entry a single offline append produces: the normalized record
paired with its quantum signature. -/
def expectedEntry (x : AppendInput) : StoredRecord :=
  ⟨normalizeData x.data x.now, createQuantumSignature (normalizeData x.data x.now) x.time⟩

/-- Unfolding equation of `logQCHAIN` on valid input: the full outcome —
settled value, store with the signed entry pushed, and the effect trace with
the persist first and the transmission attempt (online only) second. -/
theorem logQCHAIN_valid_eq (d : QRecord) (st : LogState) (online sendOk : Bool)
    (now : String) (t : Nat) (h : validData d = true) :
    logQCHAIN d st online sendOk now t =
      (Except.ok (normalizeData d now,
        { status := "logged", txId := d.txId.getD "",
          signature := createQuantumSignature (normalizeData d now) t }),
       ⟨st.logs ++ [⟨normalizeData d now, createQuantumSignature (normalizeData d now) t⟩]⟩,
       .persist ⟨normalizeData d now, createQuantumSignature (normalizeData d now) t⟩ ::
         (if online then
           [.transmit ⟨normalizeData d now, createQuantumSignature (normalizeData d now) t⟩ sendOk]
          else [])) := by
  simp [logQCHAIN, h, storeLocalLog]

/-- Unfolding equation of `logQCHAIN` on invalid input: the validation error
is thrown, the store is untouched and no effect happens. -/
theorem logQCHAIN_invalid_eq (d : QRecord) (st : LogState) (online sendOk : Bool)
    (now : String) (t : Nat) (h : validData d = false) :
    logQCHAIN d st online sendOk now t =
      (Except.error "QCHAIN log requires event and txId fields", st, []) := by
  simp [logQCHAIN, h]

/-- Every decimal digit character is in the class `\d`. -/
theorem digitChar10_digit (k : Nat) : isDigitCh (digitChar10 k) = true := by
  have h : k % 10 < 10 := Nat.mod_lt _ (by norm_num)
  unfold digitChar10
  set m := k % 10 with hm
  interval_cases m <;> decide

/-- Every nibble rendered by `hexDigitChar` is in the class `[0-9a-f]`. -/
theorem hexDigitChar_hex (n : Nat) (h : n < 16) : isHexCh (hexDigitChar n) = true := by
  interval_cases n <;> decide

/-- The decimal worker on enough fuel yields a nonempty all-digit string. -/
theorem natToDecAux_spec (fuel : Nat) :
    ∀ n, n < 10 ^ fuel → fuel ≠ 0 →
      natToDecAux fuel n ≠ [] ∧ ∀ c ∈ natToDecAux fuel n, isDigitCh c = true := by
  induction fuel with
  | zero => intro n _ hf; exact absurd rfl hf
  | succ f ih =>
    intro n hn _
    by_cases h10 : n < 10
    · constructor
      · simp [natToDecAux, h10]
      · intro c hc
        simp [natToDecAux, h10] at hc
        rw [hc]
        exact digitChar10_digit n
    · have hf : f ≠ 0 := by
        intro h0
        rw [h0] at hn
        simp at hn
        omega
      have hdiv : n / 10 < 10 ^ f := by
        rw [pow_succ] at hn
        omega
      have hrec := ih (n / 10) hdiv hf
      constructor
      · simp [natToDecAux, h10]
      · intro c hc
        simp only [natToDecAux, if_neg h10, List.mem_append] at hc
        rcases hc with hc | hc
        · exact hrec.2 c hc
        · simp at hc
          rw [hc]
          exact digitChar10_digit (n % 10)

/-- JS decimal notation of a `Date.now()` value is a nonempty digit string. -/
theorem natToDec_spec (n : Nat) :
    natToDec n ≠ [] ∧ ∀ c ∈ natToDec n, isDigitCh c = true := by
  have h2 : n < 2 ^ n := Nat.lt_two_pow n
  have hb : n < 10 ^ (n + 1) := by
    have h10 : 2 ^ n ≤ 10 ^ n := Nat.pow_le_pow_left (by norm_num) n
    have h11 : 10 ^ n ≤ 10 ^ (n + 1) := Nat.pow_le_pow_right (by norm_num) (by omega)
    omega
  exact natToDecAux_spec (n + 1) n hb (by omega)

/-- Each byte below 256 renders as two `[0-9a-f]` characters. -/
theorem byteToHex_hex (b : Nat) (hb : b < 256) :
    ∀ c ∈ byteToHex b, isHexCh c = true := by
  intro c hc
  simp [byteToHex] at hc
  rcases hc with hc | hc <;> rw [hc]
  · exact hexDigitChar_hex (b / 16) (by omega)
  · exact hexDigitChar_hex (b % 16) (by omega)

/-- Hex rendering of bytes below 256 stays inside `[0-9a-f]`. -/
theorem bytesToHex_hex (bs : List Nat) (h : ∀ b ∈ bs, b < 256) :
    ∀ c ∈ bytesToHex bs, isHexCh c = true := by
  induction bs with
  | nil => intro c hc; simp [bytesToHex, listJoinMap] at hc
  | cons b rest ih =>
    intro c hc
    simp only [bytesToHex, listJoinMap, List.mem_append] at hc
    rcases hc with hc | hc
    · exact byteToHex_hex b (h b (by simp)) c hc
    · exact ih (fun b' hb' => h b' (by simp [hb'])) c hc

/-- Hex rendering doubles the length. -/
theorem bytesToHex_length (bs : List Nat) : (bytesToHex bs).length = 2 * bs.length := by
  induction bs with
  | nil => simp [bytesToHex, listJoinMap]
  | cons b rest ih =>
    simp only [bytesToHex, listJoinMap, byteToHex, List.length_append] at *
    simp [ih]
    omega

/-- Each of the four big-endian bytes of a word is below 256. -/
theorem wordBytes_mem_lt (w : Nat) : ∀ b ∈ wordBytes w, b < 256 := by
  intro b hb
  simp [wordBytes] at hb
  rcases hb with hb | hb | hb | hb <;> rw [hb] <;> exact Nat.mod_lt _ (by norm_num)

/-- The SHA-256 digest consists of bytes. -/
theorem sha256_mem_lt (msg : List Nat) : ∀ b ∈ sha256 msg, b < 256 := by
  intro b hb
  simp only [sha256, List.mem_append] at hb
  rcases hb with ((((((hb | hb) | hb) | hb) | hb) | hb) | hb) | hb <;>
    exact wordBytes_mem_lt _ b hb

/-- The SHA-256 digest is 32 bytes long. -/
theorem sha256_length (msg : List Nat) : (sha256 msg).length = 32 := by
  simp [sha256, wordBytes]

/-- The signature fingerprint is 16 characters long. -/
theorem fp16_length (d : QRecord) (t : Nat) : (fp16 d t).length = 16 := by
  simp [fp16, List.length_take, bytesToHex_length, sha256_length]

/-- The signature fingerprint is nonempty. -/
theorem fp16_ne_nil (d : QRecord) (t : Nat) : fp16 d t ≠ [] := by
  intro h
  have := fp16_length d t
  rw [h] at this
  simp at this

/-- The signature fingerprint stays inside `[0-9a-f]`. -/
theorem fp16_hex (d : QRecord) (t : Nat) : ∀ c ∈ fp16 d t, isHexCh c = true := by
  intro c hc
  have hmem : c ∈ bytesToHex (sha256 (strToBytes (stringify d ++ natToDec t))) :=
    List.take_subset _ _ hc
  exact bytesToHex_hex _ (sha256_mem_lt _) c hmem

/-- A predicate run stops exactly at the first failing character. -/
theorem takeWhileCh_append (p : Char → Bool) (l1 : List Char) (c : Char) (l2 : List Char)
    (h1 : ∀ x ∈ l1, p x = true) (hc : p c = false) :
    takeWhileCh p (l1 ++ c :: l2) = (l1, c :: l2) := by
  induction l1 with
  | nil => simp [takeWhileCh, hc]
  | cons a as ih =>
    have ha : p a = true := h1 a (by simp)
    simp only [List.cons_append, takeWhileCh, ha, if_pos, List.append_eq]
    rw [ih (fun x hx => h1 x (by simp [hx]))]

/-- A run over an all-satisfying list consumes it entirely. -/
theorem takeWhileCh_all (p : Char → Bool) (l : List Char) (h : ∀ x ∈ l, p x = true) :
    takeWhileCh p l = (l, []) := by
  induction l with
  | nil => simp [takeWhileCh]
  | cons a as ih =>
    have ha : p a = true := h a (by simp)
    simp only [takeWhileCh, ha, if_pos]
    rw [ih (fun x hx => h x (by simp [hx]))]

/-- The regex attempt at position 0 of a well-formed signature captures
exactly the trailing digit group. -/
theorem matchQSAt_hit (hex ts : List Char) (hne : hex ≠ [])
    (hhex : ∀ c ∈ hex, isHexCh c = true) (htne : ts ≠ [])
    (htd : ∀ c ∈ ts, isDigitCh c = true) :
    matchQSAt ('Q' :: 'S' :: '-' :: (hex ++ '-' :: ts)) = some ts := by
  have hdash : isHexCh '-' = false := by decide
  simp only [matchQSAt]
  rw [takeWhileCh_append isHexCh hex '-' ts hhex hdash]
  simp only [if_neg hne]
  rw [takeWhileCh_all isDigitCh ts htd]
  simp [htne]

/-- The unanchored scan over a well-formed signature succeeds at position 0
and captures the trailing digit group. -/
theorem matchQS_hit (hex ts : List Char) (hne : hex ≠ [])
    (hhex : ∀ c ∈ hex, isHexCh c = true) (htne : ts ≠ [])
    (htd : ∀ c ∈ ts, isDigitCh c = true) :
    matchQS ('Q' :: 'S' :: '-' :: (hex ++ '-' :: ts)) = some ts := by
  simp only [matchQS]
  rw [matchQSAt_hit hex ts hne hhex htne htd]

/-- The one verification equation behind C3 and C4: verifying any record `m`
against the genuine signature of record `r` (signed at machine time `t`)
succeeds exactly when the 16-character fingerprints of the two records at that
timestamp coincide — the regex parse of a genuine signature always recovers
the signing timestamp, so verification reduces to fingerprint equality. -/
theorem verify_sign_eq (m r : QRecord) (t : Nat) :
    verifyQCHAINSignature m (createQuantumSignature r t) =
      if fp16 m t = fp16 r t then true else false := by
  have hm : matchQS (createQuantumSignature r t) = some (natToDec t) := by
    unfold createQuantumSignature
    exact matchQS_hit _ _ (fp16_ne_nil r t) (fp16_hex r t)
      (natToDec_spec t).1 (natToDec_spec t).2
  unfold verifyQCHAINSignature
  rw [hm]
  show (if createQuantumSignature r t =
          'Q' :: 'S' :: '-' ::
            ((bytesToHex (sha256 (strToBytes (stringify m ++ natToDec t)))).take 16 ++
             '-' :: natToDec t) then true else false) =
       if fp16 m t = fp16 r t then true else false
  by_cases h : fp16 m t = fp16 r t
  · rw [if_pos h]
    have : createQuantumSignature r t =
        'Q' :: 'S' :: '-' ::
          ((bytesToHex (sha256 (strToBytes (stringify m ++ natToDec t)))).take 16 ++
           '-' :: natToDec t) := by
      unfold createQuantumSignature
      rw [show (bytesToHex (sha256 (strToBytes (stringify m ++ natToDec t)))).take 16 =
            fp16 m t from rfl, h]
    rw [if_pos this]
  · rw [if_neg h]
    have hcond : ¬(createQuantumSignature r t =
        'Q' :: 'S' :: '-' ::
          ((bytesToHex (sha256 (strToBytes (stringify m ++ natToDec t)))).take 16 ++
           '-' :: natToDec t)) := by
      intro heq
      unfold createQuantumSignature at heq
      simp only [List.cons.injEq, true_and] at heq
      have hlen : (fp16 r t).length =
          ((bytesToHex (sha256 (strToBytes (stringify m ++ natToDec t)))).take 16).length := by
        rw [show (bytesToHex (sha256 (strToBytes (stringify m ++ natToDec t)))).take 16 =
              fp16 m t from rfl]
        rw [fp16_length, fp16_length]
      have := (List.append_inj heq hlen).1
      exact h (this.symm)
    rw [if_neg hcond]

/-- Writing one key never changes the reading of any other key. -/
theorem lookupKey_setKey_ne (m : Metrics) (k k' : String) (v : JVal) (h : k' ≠ k) :
    lookupKey (setKey m k v) k' = lookupKey m k' := by
  induction m with
  | nil => simp [setKey, lookupKey, Ne.symm h]
  | cons kv rest ih =>
    obtain ⟨k0, v0⟩ := kv
    by_cases h0 : k0 = k
    · subst h0
      simp only [setKey, if_pos rfl, lookupKey]
      rw [if_neg (Ne.symm h), if_neg (Ne.symm h)]
    · simp only [setKey, if_neg h0, lookupKey]
      by_cases h1 : k0 = k'
      · rw [if_pos h1, if_pos h1]
      · rw [if_neg h1, if_neg h1]
        exact ih

/-- Writing an absent key appends the binding at the end of the object. -/
theorem setKey_absent (m : Metrics) (k : String) (v : JVal)
    (h : lookupKey m k = none) :
    setKey m k v = m ++ [(k, v)] := by
  induction m with
  | nil => simp [setKey]
  | cons kv rest ih =>
    obtain ⟨k0, v0⟩ := kv
    by_cases h0 : k0 = k
    · rw [lookupKey, if_pos h0] at h
      exact absurd h (by simp)
    · rw [lookupKey, if_neg h0] at h
      simp only [setKey, if_neg h0, List.cons_append, List.cons.injEq, true_and]
      exact ih h

/-- A truthy compliance entry leaves the metrics object untouched. -/
theorem normalize_metrics_truthy (m : Metrics)
    (h : truthyOpt (lookupKey m "compliance") = true) :
    (if truthyOpt (lookupKey m "compliance") then m
     else setKey m "compliance" (.jstr "100%")) = m := by
  rw [if_pos h]

/-- Per-entry counting of the `simulateSync` loop: the fold adds exactly the
number of queued entries to `syncedOperations`. -/
theorem foldl_synced (l : List StoredRecord) (m : SyncMetrics) :
    (l.foldl (fun acc _ => { acc with syncedOperations := acc.syncedOperations + 1 }) m).syncedOperations
      = m.syncedOperations + l.length := by
  induction l generalizing m with
  | nil => simp
  | cons x xs ih =>
    simp only [List.foldl_cons, List.length_cons, ih]
    omega

/-- A batch of valid offline appends pushes exactly the normalized, signed
entries onto the store, in batch order. -/
theorem appendAllOffline_eq (inputs : List AppendInput) (st : LogState)
    (h : ∀ x ∈ inputs, validData x.data = true) :
    appendAllOffline inputs st = ⟨st.logs ++ inputs.map expectedEntry⟩ := by
  induction inputs generalizing st with
  | nil => simp [appendAllOffline]
  | cons x xs ih =>
    simp only [appendAllOffline, List.foldl_cons]
    rw [logQCHAIN_valid_eq x.data st false false x.now x.time (h x (by simp))]
    have hxs : ∀ y ∈ xs, validData y.data = true := fun y hy => h y (by simp [hy])
    have := ih ⟨st.logs ++ [expectedEntry x]⟩ hxs
    simp only [appendAllOffline] at this
    rw [show (⟨st.logs ++ [⟨normalizeData x.data x.now,
          createQuantumSignature (normalizeData x.data x.now) x.time⟩]⟩ : LogState) =
        (⟨st.logs ++ [expectedEntry x]⟩ : LogState) from rfl]
    rw [this]
    simp [expectedEntry]

/-- Claim C1: on every valid input (non-empty event and txId), `logQCHAIN`
persists the signed record to the local store unconditionally — the new store
is the old one with the signed entry pushed, whatever the connectivity state
and the transmission outcome — and the persist effect precedes any
transmission attempt in the effect trace; a transmission failure
(`sendOk = false`) is caught internally and never propagated: the call still
settles with the `{status, txId, signature}` result. -/
theorem c1_persist_before_transmit (d : QRecord) (st : LogState) (online sendOk : Bool)
    (now : String) (t : Nat) (hv : validData d = true) :
    (logQCHAIN d st online sendOk now t).2.1 =
      storeLocalLog st ⟨normalizeData d now, createQuantumSignature (normalizeData d now) t⟩ ∧
    (logQCHAIN d st online sendOk now t).2.2 =
      .persist ⟨normalizeData d now, createQuantumSignature (normalizeData d now) t⟩ ::
        (if online then
          [.transmit ⟨normalizeData d now, createQuantumSignature (normalizeData d now) t⟩ sendOk]
         else []) ∧
    (logQCHAIN d st online sendOk now t).1 =
      Except.ok (normalizeData d now,
        { status := "logged", txId := d.txId.getD "",
          signature := createQuantumSignature (normalizeData d now) t }) := by
  rw [logQCHAIN_valid_eq d st online sendOk now t hv]
  exact ⟨rfl, rfl, rfl⟩

/-- Concrete input for the C1 witness: a valid record logged online with a
failing transmission. -/
def dC1 : QRecord := { event := some "genesis", txId := some "TX-C1" }

/-- Witness for C1 at a concrete valid record, online, with the transmission
attempt failing: the store still gains the entry, the persist effect comes
first, and the call still settles with the result. -/
theorem c1_witness :
    (logQCHAIN dC1 ⟨[]⟩ true false "2026-02-02T00:00:00.000Z" 42).2.1 =
      storeLocalLog ⟨[]⟩
        ⟨normalizeData dC1 "2026-02-02T00:00:00.000Z",
         createQuantumSignature (normalizeData dC1 "2026-02-02T00:00:00.000Z") 42⟩ ∧
    (logQCHAIN dC1 ⟨[]⟩ true false "2026-02-02T00:00:00.000Z" 42).2.2 =
      .persist ⟨normalizeData dC1 "2026-02-02T00:00:00.000Z",
         createQuantumSignature (normalizeData dC1 "2026-02-02T00:00:00.000Z") 42⟩ ::
        (if true then
          [.transmit ⟨normalizeData dC1 "2026-02-02T00:00:00.000Z",
             createQuantumSignature (normalizeData dC1 "2026-02-02T00:00:00.000Z") 42⟩ false]
         else []) ∧
    (logQCHAIN dC1 ⟨[]⟩ true false "2026-02-02T00:00:00.000Z" 42).1 =
      Except.ok (normalizeData dC1 "2026-02-02T00:00:00.000Z",
        { status := "logged", txId := dC1.txId.getD "",
          signature := createQuantumSignature (normalizeData dC1 "2026-02-02T00:00:00.000Z") 42 }) :=
  c1_persist_before_transmit dC1 ⟨[]⟩ true false "2026-02-02T00:00:00.000Z" 42 (by decide)

/-- Claim C2: an input with event or txId missing or empty makes `logQCHAIN`
throw the validation error before any persistence — the store comes back
unchanged and the effect trace empty — while any input with both fields
present and non-empty settles successfully with the normalized record and the
`{status, txId, signature}` result. -/
theorem c2_validation (d : QRecord) (st : LogState) (online sendOk : Bool)
    (now : String) (t : Nat) :
    (validData d = false →
      logQCHAIN d st online sendOk now t =
        (Except.error "QCHAIN log requires event and txId fields", st, [])) ∧
    (validData d = true →
      (logQCHAIN d st online sendOk now t).1 =
        Except.ok (normalizeData d now,
          { status := "logged", txId := d.txId.getD "",
            signature := createQuantumSignature (normalizeData d now) t })) := by
  constructor
  · intro h
    exact logQCHAIN_invalid_eq d st online sendOk now t h
  · intro h
    rw [logQCHAIN_valid_eq d st online sendOk now t h]

/-- Concrete invalid input for the C2 witness: txId present but empty. -/
def dC2bad : QRecord := { event := some "mint", txId := some "" }

/-- Concrete valid input for the C2 witness. -/
def dC2good : QRecord := { event := some "mint", txId := some "TX-C2" }

/-- Witness for C2: the empty-txId record is rejected with the store
untouched and no effects, and the valid record settles successfully. -/
theorem c2_witness :
    logQCHAIN dC2bad ⟨[]⟩ true true "2026-02-02T00:00:00.000Z" 7 =
      (Except.error "QCHAIN log requires event and txId fields", ⟨[]⟩, []) ∧
    (logQCHAIN dC2good ⟨[]⟩ true true "2026-02-02T00:00:00.000Z" 7).1 =
      Except.ok (normalizeData dC2good "2026-02-02T00:00:00.000Z",
        { status := "logged", txId := dC2good.txId.getD "",
          signature := createQuantumSignature (normalizeData dC2good "2026-02-02T00:00:00.000Z") 7 }) :=
  ⟨(c2_validation dC2bad ⟨[]⟩ true true "2026-02-02T00:00:00.000Z" 7).1 (by decide),
   (c2_validation dC2good ⟨[]⟩ true true "2026-02-02T00:00:00.000Z" 7).2 (by decide)⟩

/-- Claim C3: the signature is a deterministic function of the record's
serialized content and the signing timestamp — two records with the same
JSON serialization signed at the same machine time get the identical
signature (the embedding's signing is a pure function, so recomputation from
equal inputs cannot differ) — and verifying any record against its genuine
signature, the one produced at signing time over that same content,
returns true. -/
theorem c3_verify_roundtrip (d1 d2 d : QRecord) (t : Nat) :
    (stringify d1 = stringify d2 →
      createQuantumSignature d1 t = createQuantumSignature d2 t) ∧
    verifyQCHAINSignature d (createQuantumSignature d t) = true := by
  constructor
  · intro h
    unfold createQuantumSignature fp16
    rw [h]
  · rw [verify_sign_eq]
    simp

/-- Concrete record for the C3 witness. -/
def dC3 : QRecord :=
  { event := some "transfer", txId := some "TX-C3",
    timestamp := some "2026-02-02T00:00:00.000Z", interplanetary := some true,
    metrics := some [("compliance", .jstr "100%")] }

/-- Witness for C3 at a concrete record: recomputing the signature from the
same content and timestamp reproduces it, and the genuine signature
verifies. -/
theorem c3_witness :
    createQuantumSignature dC3 1700000000000 = createQuantumSignature dC3 1700000000000 ∧
    verifyQCHAINSignature dC3 (createQuantumSignature dC3 1700000000000) = true :=
  ⟨(c3_verify_roundtrip dC3 dC3 dC3 1700000000000).1 rfl,
   (c3_verify_roundtrip dC3 dC3 dC3 1700000000000).2⟩

/-- Claim C4, amended: verifying a record mutated after signing against the
original signature reduces exactly to fingerprint equality — it returns true
precisely when the mutated record's 16-character truncated SHA-256 fingerprint
over (serialization, embedded timestamp) coincides with the original's.
Mutations invisible to the JSON serialization are therefore never detected,
and serialization-changing mutations are detected exactly when the truncated
fingerprints differ. -/
theorem c4_fingerprint_characterization (m r : QRecord) (t : Nat) :
    verifyQCHAINSignature m (createQuantumSignature r t) =
      if fp16 m t = fp16 r t then true else false :=
  verify_sign_eq m r t

/-- The record signed in the C4 counterexample: its metrics carry a NaN-valued
score entry. -/
def origC4 : QRecord :=
  { event := some "transfer", txId := some "TX-C4",
    timestamp := some "2026-01-01T00:00:00.000Z", interplanetary := some true,
    metrics := some [("compliance", .jstr "100%"), ("score", .jnan)] }

/-- The mutated copy in the C4 counterexample: the score entry changed from
NaN to null after signing — a different in-memory value with the same JSON
serialization, since `JSON.stringify` renders NaN as null. -/
def mutC4 : QRecord :=
  { event := some "transfer", txId := some "TX-C4",
    timestamp := some "2026-01-01T00:00:00.000Z", interplanetary := some true,
    metrics := some [("compliance", .jstr "100%"), ("score", .jnull)] }

/-- Counterexample to C4 as stated: the mutated record differs from the
signed one (a field changed from NaN to null), yet verification against the
original signature returns true, because the two records serialize
identically. -/
theorem c4_counterexample :
    mutC4 ≠ origC4 ∧
    verifyQCHAINSignature mutC4 (createQuantumSignature origC4 1700000000000) = true := by
  constructor
  · decide
  · have hs : stringify mutC4 = stringify origC4 := by decide
    have hf : fp16 mutC4 1700000000000 = fp16 origC4 1700000000000 := by
      unfold fp16
      rw [hs]
    rw [verify_sign_eq, if_pos hf]

/-- Claim C5, amended: `simulateSync` never marks or removes queued entries,
so it is not idempotent — every call re-processes the entire queue: each of
two consecutive calls performs exactly one sync operation per stored log, and
after the two calls `syncedOperations` has grown by twice the queue length. -/
theorem c5_resync_all (st : LogState) (m : SyncMetrics) :
    (simulateSync st m).2 = (getQCHAINLogs st).length ∧
    (simulateSync st (simulateSync st m).1).2 = (getQCHAINLogs st).length ∧
    (simulateSync st (simulateSync st m).1).1.syncedOperations =
      m.syncedOperations + 2 * (getQCHAINLogs st).length := by
  refine ⟨rfl, rfl, ?_⟩
  simp only [simulateSync, foldl_synced]
  omega

/-- Store for the C5 counterexample: a single queued log entry. -/
def stC5 : LogState :=
  ⟨[⟨{ event := some "e", txId := some "t" }, 'Q' :: 'S' :: '-' :: 'a' :: 'b' :: '-' :: '1' :: []⟩]⟩

/-- Counterexample to C5 as stated: with one queued entry and no new appends
between the calls, the second `simulateSync` call performs one sync operation
again — not zero — because the first call marked nothing as transmitted. -/
theorem c5_counterexample :
    (simulateSync stC5 (simulateSync stC5 ⟨0⟩).1).2 = 1 ∧ (1 : Nat) ≠ 0 := by
  constructor
  · decide
  · decide

/-- Claim C6: reading the store returns exactly the locally stored records,
in insertion order — after a batch of valid appends performed offline, the
store holds the prior contents followed by precisely the normalized, signed
entries of the batch, in the order they were appended. -/
theorem c6_list_pending (inputs : List AppendInput) (st : LogState)
    (h : ∀ x ∈ inputs, validData x.data = true) :
    getQCHAINLogs (appendAllOffline inputs st) =
      getQCHAINLogs st ++ inputs.map expectedEntry := by
  rw [appendAllOffline_eq inputs st h]
  rfl

/-- Concrete batch for the C6 witness: three valid records appended while
offline. -/
def inputsC6 : List AppendInput :=
  [⟨{ event := some "e1", txId := some "t1" }, "2026-03-03T00:00:01.000Z", 1001⟩,
   ⟨{ event := some "e2", txId := some "t2" }, "2026-03-03T00:00:02.000Z", 1002⟩,
   ⟨{ event := some "e3", txId := some "t3" }, "2026-03-03T00:00:03.000Z", 1003⟩]

/-- Witness for C6: appending the three concrete records offline to an empty
store makes the store read back exactly those three signed entries in
insertion order. -/
theorem c6_witness :
    getQCHAINLogs (appendAllOffline inputsC6 ⟨[]⟩) =
      getQCHAINLogs (⟨[]⟩ : LogState) ++ inputsC6.map expectedEntry :=
  c6_list_pending inputsC6 ⟨[]⟩ (by decide)

/-- Claim C7: `verifyQCHAINSignature` fails closed — whenever the unanchored
scan for `QS-[0-9a-f]+-(\d+)` finds no match in the signature string, so the
embedded timestamp cannot be parsed, verification returns false; the embedded
function is total, mirroring that the JS code returns rather than throws. -/
theorem c7_fails_closed (d : QRecord) (sig : List Char) (h : matchQS sig = none) :
    verifyQCHAINSignature d sig = false := by
  unfold verifyQCHAINSignature
  rw [h]

/-- Unparseable signature for the C7 witness: the hex run before the second
dash is empty, so the regex matches at no position. -/
def sigC7 : List Char := "garbage QS--12".toList

/-- Record for the C7 witness. -/
def dC7 : QRecord := { event := some "e", txId := some "t" }

/-- Witness for C7: the concrete malformed signature has no regex match and
verification on it returns false. -/
theorem c7_witness :
    matchQS sigC7 = none ∧ verifyQCHAINSignature dC7 sigC7 = false :=
  ⟨by decide, c7_fails_closed dC7 sigC7 (by decide)⟩

/-- Claim C8, amended: when the caller supplies a metrics mapping, `logQCHAIN`
leaves every entry other than `compliance` unchanged — reading any other key
after the call gives what the caller stored — and leaves the mapping entirely
unchanged when its `compliance` entry is truthy; otherwise it writes
`compliance = '100%'` into the mapping (appending it when absent, overwriting
in place when present but falsy).  The mapping's other entries are never
interpreted or modified. -/
theorem c8_compliance_frame (d : QRecord) (st : LogState) (online sendOk : Bool)
    (now : String) (t : Nat) (m : Metrics) (k : String)
    (hv : validData d = true) (hm : d.metrics = some m) (hk : k ≠ "compliance") :
    loggedMetrics (logQCHAIN d st online sendOk now t) =
      some (if truthyOpt (lookupKey m "compliance") then m
            else setKey m "compliance" (.jstr "100%")) ∧
    lookupKey (if truthyOpt (lookupKey m "compliance") then m
               else setKey m "compliance" (.jstr "100%")) k = lookupKey m k ∧
    (truthyOpt (lookupKey m "compliance") = true →
      (if truthyOpt (lookupKey m "compliance") then m
       else setKey m "compliance" (.jstr "100%")) = m) := by
  refine ⟨?_, ?_, ?_⟩
  · rw [logQCHAIN_valid_eq d st online sendOk now t hv]
    simp [loggedMetrics, normalizeData, hm]
  · by_cases ht : truthyOpt (lookupKey m "compliance") = true
    · rw [if_pos ht]
    · rw [if_neg ht]
      exact lookupKey_setKey_ne m "compliance" k (.jstr "100%") hk
  · intro ht
    rw [if_pos ht]

/-- Caller-supplied metrics without a compliance entry, for the C8
counterexample. -/
def dC8 : QRecord :=
  { event := some "mint", txId := some "TX-C8",
    timestamp := some "2026-01-01T00:00:00.000Z", interplanetary := some true,
    metrics := some [("score", .jint 5)] }

/-- Counterexample to C8 as stated: the caller supplied the mapping
`{score: 5}`, and after the append the caller's mapping is
`{score: 5, compliance: '100%'}` — the log added an entry, so the supplied
mapping's contents did not stay unchanged. -/
theorem c8_counterexample :
    loggedMetrics (logQCHAIN dC8 ⟨[]⟩ false false "2026-01-01T00:00:00.000Z" 1000) =
      some [("score", .jint 5), ("compliance", .jstr "100%")] ∧
    some [("score", JVal.jint 5), ("compliance", JVal.jstr "100%")] ≠
      some [("score", JVal.jint 5)] := by
  constructor
  · rw [logQCHAIN_valid_eq dC8 ⟨[]⟩ false false "2026-01-01T00:00:00.000Z" 1000 (by decide)]
    decide
  · decide

/-- Metrics with a truthy compliance entry, for the C8 witness. -/
def dC8w : QRecord :=
  { event := some "mint", txId := some "TX-C8W",
    metrics := some [("score", .jint 5), ("compliance", .jstr "yes")] }

/-- Witness for C8 amended, at a concrete record whose supplied metrics
carry a truthy compliance entry: the caller's mapping comes back exactly as
supplied and the non-compliance key reads unchanged. -/
theorem c8_witness :
    loggedMetrics (logQCHAIN dC8w ⟨[]⟩ true true "2026-02-02T00:00:00.000Z" 9) =
      some (if truthyOpt (lookupKey [("score", .jint 5), ("compliance", .jstr "yes")] "compliance")
            then [("score", .jint 5), ("compliance", .jstr "yes")]
            else setKey [("score", .jint 5), ("compliance", .jstr "yes")] "compliance" (.jstr "100%")) ∧
    lookupKey (if truthyOpt (lookupKey [("score", .jint 5), ("compliance", .jstr "yes")] "compliance")
               then [("score", .jint 5), ("compliance", .jstr "yes")]
               else setKey [("score", .jint 5), ("compliance", .jstr "yes")] "compliance" (.jstr "100%")) "score" =
      lookupKey [("score", .jint 5), ("compliance", .jstr "yes")] "score" ∧
    (truthyOpt (lookupKey [("score", .jint 5), ("compliance", .jstr "yes")] "compliance") = true →
      (if truthyOpt (lookupKey [("score", .jint 5), ("compliance", .jstr "yes")] "compliance")
       then [("score", .jint 5), ("compliance", .jstr "yes")]
       else setKey [("score", .jint 5), ("compliance", .jstr "yes")] "compliance" (.jstr "100%")) =
        [("score", .jint 5), ("compliance", .jstr "yes")]) :=
  c8_compliance_frame dC8w ⟨[]⟩ true true "2026-02-02T00:00:00.000Z" 9
    [("score", .jint 5), ("compliance", .jstr "yes")] "score"
    (by decide) (by decide) (by decide)

/-- Claim C9: `logQCHAIN` mutates the caller's argument object in place — on
every successful call the caller's object afterwards is the normalized
record: an absent timestamp has been filled with the current ISO time, an
absent interplanetary flag with true (a present flag is kept as passed), an
absent metrics mapping materializes and an absent `metrics.compliance` entry
is appended as '100%'; the signature is returned in the result and attached
to the stored copy, never to the caller's object (`QRecord` carries no
signature property — only `StoredRecord` does). -/
theorem c9_mutates_argument (d : QRecord) (st : LogState) (online sendOk : Bool)
    (now : String) (t : Nat) (hv : validData d = true) :
    loggedRecord (logQCHAIN d st online sendOk now t) = some (normalizeData d now) ∧
    (d.timestamp = none → (normalizeData d now).timestamp = some now) ∧
    (d.interplanetary = none → (normalizeData d now).interplanetary = some true) ∧
    (normalizeData d now).interplanetary = some (d.interplanetary.getD true) ∧
    (lookupKey (d.metrics.getD []) "compliance" = none →
      (normalizeData d now).metrics =
        some (d.metrics.getD [] ++ [("compliance", .jstr "100%")])) ∧
    (logQCHAIN d st online sendOk now t).2.1.logs =
      st.logs ++ [⟨normalizeData d now, createQuantumSignature (normalizeData d now) t⟩] ∧
    (logQCHAIN d st online sendOk now t).1 =
      Except.ok (normalizeData d now,
        { status := "logged", txId := d.txId.getD "",
          signature := createQuantumSignature (normalizeData d now) t }) := by
  refine ⟨?_, ?_, ?_, ?_, ?_, ?_, ?_⟩
  · rw [logQCHAIN_valid_eq d st online sendOk now t hv]
    simp [loggedRecord]
  · intro h
    simp [normalizeData, h]
  · intro h
    simp [normalizeData, h]
  · simp [normalizeData]
  · intro h
    simp only [normalizeData, h, truthyOpt, Bool.false_eq_true, if_false, Option.some.injEq]
    exact setKey_absent (d.metrics.getD []) "compliance" (.jstr "100%") h
  · rw [logQCHAIN_valid_eq d st online sendOk now t hv]
  · rw [logQCHAIN_valid_eq d st online sendOk now t hv]

/-- Concrete input for the C9 witness: only the required fields present, all
defaulted properties absent. -/
def dC9 : QRecord := { event := some "breath", txId := some "TX-C9" }

/-- Witness for C9 at a concrete minimal record: the caller's object after
the call is the normalized record, with each absent property filled in, the
signed copy stored, and the signature only in the result and the store. -/
theorem c9_witness :
    loggedRecord (logQCHAIN dC9 ⟨[]⟩ false true "2026-02-02T00:00:00.000Z" 77) =
      some (normalizeData dC9 "2026-02-02T00:00:00.000Z") ∧
    (dC9.timestamp = none →
      (normalizeData dC9 "2026-02-02T00:00:00.000Z").timestamp =
        some "2026-02-02T00:00:00.000Z") ∧
    (dC9.interplanetary = none →
      (normalizeData dC9 "2026-02-02T00:00:00.000Z").interplanetary = some true) ∧
    (normalizeData dC9 "2026-02-02T00:00:00.000Z").interplanetary =
      some (dC9.interplanetary.getD true) ∧
    (lookupKey (dC9.metrics.getD []) "compliance" = none →
      (normalizeData dC9 "2026-02-02T00:00:00.000Z").metrics =
        some (dC9.metrics.getD [] ++ [("compliance", .jstr "100%")])) ∧
    (logQCHAIN dC9 ⟨[]⟩ false true "2026-02-02T00:00:00.000Z" 77).2.1.logs =
      [] ++ [⟨normalizeData dC9 "2026-02-02T00:00:00.000Z",
              createQuantumSignature (normalizeData dC9 "2026-02-02T00:00:00.000Z") 77⟩] ∧
    (logQCHAIN dC9 ⟨[]⟩ false true "2026-02-02T00:00:00.000Z" 77).1 =
      Except.ok (normalizeData dC9 "2026-02-02T00:00:00.000Z",
        { status := "logged", txId := dC9.txId.getD "",
          signature := createQuantumSignature (normalizeData dC9 "2026-02-02T00:00:00.000Z") 77 }) :=
  c9_mutates_argument dC9 ⟨[]⟩ false true "2026-02-02T00:00:00.000Z" 77 (by decide)
